import Mathlib

/-!
Shallow embedding of the check-deduplication / lifecycle state machine and the
rate-limit counter of `src/cloudflare-worker/services/queueManager.ts` and the
quality-check module (`checkRateLimit`, `validateWithOpenRouter`).

Modelling conventions:
* JS numbers are embedded as `Int` (all arithmetic in the code is integer-valued).
* `Date.now()` is passed in as an explicit `now : Int` parameter.
* The KV store `env.PR_STATE` is split into the part under the `"queue:"` key
  namespace (an association list `QueueStore`, keys carry the `"queue:"` prefix)
  and the single `"rate_limit"` key (an `Option RateLimitState`); the two key
  sets are disjoint in the code, so no operation crosses the split.
* A thrown `Error` is an `Except.error` carrying the message; store effects are
  explicit: each operation returns its result together with the new store, and a
  throw that happens before a `put` leaves the store component unchanged.
* `JSON.parse` performs no validation, so the `status` field of a stored record
  is modelled as an arbitrary `String`, not the four-value enum of the
  TypeScript union type.
-/

/-- JS `Math.ceil(a / b)` for an integer `a` and a positive integer `b`
(`/` on `Int` is Euclidean division, which floors for a positive divisor). -/
def jsCeilDiv (a b : Int) : Int := -((-a) / b)

/-- Job descriptor from `src/cloudflare-worker/types.ts` (`PullRequestJob`). -/
structure PullRequestJob where
  repository : String
  prNumber : Int
  commentId : Option Int
deriving Repr, DecidableEq

/-- Stored check record (`QueuedCheck` in `queueManager.ts`). `status` is a
plain `String`: the code reads it back with an unvalidated `JSON.parse`. -/
structure QueuedCheck where
  repository : String
  prNumber : Int
  commentId : Option Int
  timestamp : Int
  status : String
  result : Option String
deriving Repr, DecidableEq

/-- The `"queue:"`-prefixed portion of the `PR_STATE` KV namespace. -/
abbrev QueueStore := List (String × QueuedCheck)

/-- `env.PR_STATE.get(key)` restricted to queue keys. -/
def storeGet (store : QueueStore) (key : String) : Option QueuedCheck :=
  (store.find? fun e => e.1 == key).map fun e => e.2

/-- `env.PR_STATE.put(key, value)`: full overwrite of the key. -/
def storePut (store : QueueStore) (key : String) (v : QueuedCheck) : QueueStore :=
  (key, v) :: store.filter fun e => e.1 != key

/-- `getQueueKey` of `QueueManager`. -/
def getQueueKey (job : PullRequestJob) : String :=
  "queue:" ++ job.repository ++ ":" ++ toString job.prNumber

/-- `cooldownPeriod = 5 * 60 * 1000` (5 minutes in milliseconds). -/
def cooldownPeriod : Int := 5 * 60 * 1000

/-- Message template of the check-already-in-progress return. -/
def inProgressMsg (s : String) : String :=
  "> ⏳ **Article Check Status**: Check already in progress\n\nCurrent status: `"
    ++ s ++ "`"

/-- Message template of the cooldown return. -/
def cooldownMsg (waitTime : Int) : String :=
  "> ⏰ **Cooldown Period**\n\nPlease wait `" ++ toString waitTime
    ++ "` seconds before requesting another check.\n\n_This helps prevent API rate limits and ensures thorough analysis._"

/-- Message of the check-started return. -/
def startedMsg : String :=
  "> 🔄 **Article Check Started**\n\nYour request has been queued and will be processed shortly."

/-- Return value of `enqueueCheck`. -/
structure EnqueueResult where
  status : String
  isNew : Bool
deriving Repr, DecidableEq

/-- The fresh record written by `enqueueCheck` (`newCheck` in the source). -/
def newCheck (now : Int) (job : PullRequestJob) : QueuedCheck :=
  { repository := job.repository
    prNumber := job.prNumber
    commentId := job.commentId
    timestamp := now
    status := "pending"
    result := none }

/-- Tail of `enqueueCheck`: write the fresh pending record and return started. -/
def startCheck (now : Int) (job : PullRequestJob) (store : QueueStore) :
    EnqueueResult × QueueStore :=
  ({ status := startedMsg, isNew := true },
   storePut store (getQueueKey job) (newCheck now job))

/-- `QueueManager.enqueueCheck`. Returns the `{status, isNew}` result together
with the store after the call. -/
def enqueueCheck (now : Int) (job : PullRequestJob) (store : QueueStore) :
    EnqueueResult × QueueStore :=
  match storeGet store (getQueueKey job) with
  | some check =>
      if check.status ≠ "completed" ∧ check.status ≠ "failed" then
        ({ status := inProgressMsg check.status, isNew := false }, store)
      else if now - check.timestamp < cooldownPeriod then
        ({ status := cooldownMsg
              (jsCeilDiv (cooldownPeriod - (now - check.timestamp)) 1000),
           isNew := false }, store)
      else startCheck now job store
  | none => startCheck now job store

/-- The `if (result) check.result = result` step of `updateCheckStatus`:
JS truthiness makes the empty string behave like an absent argument. -/
def applyResult (check : QueuedCheck) (result : Option String) : QueuedCheck :=
  match result with
  | some r => if r = "" then check else { check with result := some r }
  | none => check

/-- `QueueManager.updateCheckStatus`. The thrown not-found `Error` is the
`Except.error` case; on success the new store is returned. -/
def updateCheckStatus (job : PullRequestJob) (status : String)
    (result : Option String) (store : QueueStore) : Except String QueueStore :=
  match storeGet store (getQueueKey job) with
  | none => Except.error "QueueManager: Check not found in queue"
  | some check =>
      Except.ok (storePut store (getQueueKey job)
        (applyResult { check with status := status } result))

/-- `QueueManager.cleanOldChecks`: list the `"queue:"` keys and delete every
record with `timestamp < now - 3600000`. -/
def cleanOldChecks (now : Int) (store : QueueStore) : QueueStore :=
  let oneHourAgo := now - 3600000
  store.filter fun e => ! decide (e.2.timestamp < oneHourAgo)

/-- `RateLimitState` of the quality-check module. -/
structure RateLimitState where
  requestCount : Int
  inputTokens : Int
  outputTokens : Int
  timestamp : Int
deriving Repr, DecidableEq

/-- `RATE_LIMITS.requestsPerMinute`. -/
def requestsPerMinute : Int := 5

/-- `RATE_LIMITS.inputTokensPerMinute`. -/
def inputTokensPerMinute : Int := 10000

/-- `RATE_LIMITS.outputTokensPerMinute`. -/
def outputTokensPerMinute : Int := 2000

/-- `getRateLimitState`: the stored `"rate_limit"` value, or a zeroed state
stamped with the current time when the key is absent. -/
def getRateLimitState (now : Int) (stored : Option RateLimitState) :
    RateLimitState :=
  match stored with
  | none => { requestCount := 0, inputTokens := 0, outputTokens := 0, timestamp := now }
  | some s => s

/-- `checkRateLimit` (the `reserve` operation of the spec). Returns the thrown
error or `Except.ok ()`, paired with the `"rate_limit"` store content after the
call: the `updateRateLimitState` put runs only on the success path, so on a
throw the second component is the unchanged input. -/
def checkRateLimit (tokenCount now : Int) (stored : Option RateLimitState) :
    Except String Unit × Option RateLimitState :=
  let state := getRateLimitState now stored
  let state :=
    if now - state.timestamp ≥ 60000 then
      { requestCount := 0, inputTokens := 0, outputTokens := 0, timestamp := now }
    else state
  if state.requestCount ≥ requestsPerMinute then
    (Except.error "Rate limit exceeded: Too many requests per minute", stored)
  else if state.inputTokens + tokenCount ≥ inputTokensPerMinute then
    (Except.error "Rate limit exceeded: Too many input tokens per minute", stored)
  else
    (Except.ok (),
     some { state with
              requestCount := state.requestCount + 1
              inputTokens := state.inputTokens + tokenCount })

/-- The output-token accounting block at the end of `validateWithOpenRouter`
(the `recordOutput` operation of the spec): load the counter, add the estimate
to `outputTokens`, throw when the new total reaches the limit, and only then
persist. The throw precedes the `updateRateLimitState` put, so on failure the
stored counter is the unchanged input. -/
def recordOutput (outputTokenEstimate now : Int)
    (stored : Option RateLimitState) :
    Except String Unit × Option RateLimitState :=
  let state := getRateLimitState now stored
  let state := { state with outputTokens := state.outputTokens + outputTokenEstimate }
  if state.outputTokens ≥ outputTokensPerMinute then
    (Except.error "Rate limit exceeded: Too many output tokens per minute", stored)
  else
    (Except.ok (), some state)

/-- Sequential `checkRateLimit` calls `(now, tokenCount)`, stopping at the
first thrown error; returns the final `"rate_limit"` store content. -/
def runReserves (calls : List (Int × Int)) (stored : Option RateLimitState) :
    Except String (Option RateLimitState) :=
  match calls with
  | [] => Except.ok stored
  | c :: rest =>
      match checkRateLimit c.2 c.1 stored with
      | (Except.ok _, stored') => runReserves rest stored'
      | (Except.error e, _) => Except.error e

/-! ## Store lemmas -/

theorem storeGet_storePut_self (store : QueueStore) (k : String) (v : QueuedCheck) :
    storeGet (storePut store k v) k = some v := by
  simp [storeGet, storePut]

theorem storeGet_mem (store : QueueStore) (k : String) (c : QueuedCheck)
    (h : storeGet store k = some c) : (k, c) ∈ store := by
  unfold storeGet at h
  obtain ⟨e, he, h2⟩ := Option.map_eq_some'.mp h
  have hp := List.find?_some he
  have hm := List.mem_of_find?_eq_some he
  obtain ⟨e1, e2⟩ := e
  simp only [beq_iff_eq] at hp
  simp only at h2
  subst hp
  subst h2
  exact hm

/-! ## Claim theorems -/

/-- C1 counterexample: with a stored counter at `outputTokens = 1999` and an
estimate of `1`, `recordOutput` fails (new total `2000 ≥ 2000`) but the stored
counter is left at `1999`, not the claimed old-plus-estimate `2000`: the throw
happens before the persist. -/
theorem C1_counterexample :
    (recordOutput 1 500 (some ⟨1, 100, 1999, 0⟩)).1 =
      Except.error "Rate limit exceeded: Too many output tokens per minute" ∧
    (recordOutput 1 500 (some ⟨1, 100, 1999, 0⟩)).2 = some ⟨1, 100, 1999, 0⟩ ∧
    (recordOutput 1 500 (some ⟨1, 100, 1999, 0⟩)).2 ≠ some ⟨1, 100, 2000, 0⟩ := by
  refine ⟨rfl, rfl, ?_⟩
  decide

/-- C1 (amended): `recordOutput` adds the estimate to `outputTokens` and fails
with the output-token `RateLimitExceeded` error exactly when the new total is
`≥ 2000`; the updated counter is persisted only on success — on failure the
throw precedes the persist, so the stored counter keeps its pre-call value. -/
theorem C1_recordOutput (e now : Int) (s : RateLimitState) :
    (s.outputTokens + e ≥ 2000 →
      recordOutput e now (some s) =
        (Except.error "Rate limit exceeded: Too many output tokens per minute",
         some s)) ∧
    (s.outputTokens + e < 2000 →
      recordOutput e now (some s) =
        (Except.ok (), some { s with outputTokens := s.outputTokens + e })) := by
  constructor <;> intro h
  · simp only [recordOutput, getRateLimitState, outputTokensPerMinute]
    rw [if_pos h]
  · simp only [recordOutput, getRateLimitState, outputTokensPerMinute]
    rw [if_neg (by omega)]

theorem C1_recordOutput_witness :
    recordOutput 1 500 (some ⟨1, 100, 1999, 0⟩) =
      (Except.error "Rate limit exceeded: Too many output tokens per minute",
       some ⟨1, 100, 1999, 0⟩) ∧
    recordOutput 5 500 (some ⟨0, 0, 10, 7⟩) = (Except.ok (), some ⟨0, 0, 15, 7⟩) :=
  ⟨(C1_recordOutput 1 500 ⟨1, 100, 1999, 0⟩).1 (by decide),
   (C1_recordOutput 5 500 ⟨0, 0, 10, 7⟩).2 (by decide)⟩

/-- C2: on a terminal (`completed`/`failed`) record strictly younger than
300000 ms, `enqueueCheck` returns `isNew = false` with the cooldown message,
writes nothing, and the wait time `w` in the message is the ceiling of
`(300000 - elapsed) / 1000` seconds (characterised by
`1000 * (w - 1) < 300000 - elapsed ≤ 1000 * w`), with `0 < w ≤ 300`, and
`w = 100` when the record is exactly 200000 ms old. -/
theorem C2_cooldown_wait (now : Int) (job : PullRequestJob) (store : QueueStore)
    (check : QueuedCheck)
    (hget : storeGet store (getQueueKey job) = some check)
    (hstatus : check.status = "completed" ∨ check.status = "failed")
    (h0 : check.timestamp ≤ now)
    (hlt : now - check.timestamp < 300000) :
    (enqueueCheck now job store).1.isNew = false ∧
    (enqueueCheck now job store).2 = store ∧
    ∃ w : Int,
      (enqueueCheck now job store).1.status = cooldownMsg w ∧
      1000 * (w - 1) < 300000 - (now - check.timestamp) ∧
      300000 - (now - check.timestamp) ≤ 1000 * w ∧
      0 < w ∧ w ≤ 300 ∧
      (now - check.timestamp = 200000 → w = 100) := by
  have hbranch : ¬ (check.status ≠ "completed" ∧ check.status ≠ "failed") := by
    rcases hstatus with h | h <;> simp [h]
  have hcool : now - check.timestamp < cooldownPeriod := by
    unfold cooldownPeriod; omega
  have hrun : enqueueCheck now job store =
      ({ status := cooldownMsg
            (jsCeilDiv (cooldownPeriod - (now - check.timestamp)) 1000),
         isNew := false }, store) := by
    unfold enqueueCheck
    rw [hget]
    simp only [if_neg hbranch, if_pos hcool]
  refine ⟨by rw [hrun], by rw [hrun],
    jsCeilDiv (cooldownPeriod - (now - check.timestamp)) 1000,
    by rw [hrun], ?_, ?_, ?_, ?_, ?_⟩ <;>
  · unfold jsCeilDiv cooldownPeriod
    omega

theorem C2_cooldown_wait_witness :
    (enqueueCheck 200000 ⟨"acme/repo", 42, some 7⟩
      [("queue:acme/repo:42", ⟨"acme/repo", 42, some 7, 0, "completed", none⟩)]).1.isNew
        = false ∧
    (enqueueCheck 200000 ⟨"acme/repo", 42, some 7⟩
      [("queue:acme/repo:42", ⟨"acme/repo", 42, some 7, 0, "completed", none⟩)]).2
        = [("queue:acme/repo:42", ⟨"acme/repo", 42, some 7, 0, "completed", none⟩)] := by
  have h := C2_cooldown_wait 200000 ⟨"acme/repo", 42, some 7⟩
    [("queue:acme/repo:42", ⟨"acme/repo", 42, some 7, 0, "completed", none⟩)]
    ⟨"acme/repo", 42, some 7, 0, "completed", none⟩
    (by decide) (Or.inl rfl) (by decide) (by decide)
  exact ⟨h.1, h.2.1⟩

/-- C3: on an idle key (no record, or a terminal record at least 300000 ms
old), `enqueueCheck` returns `isNew = true` with the check-started message and
overwrites the key with a fresh record carrying the job's `repository`,
`prNumber` and `commentId`, status `"pending"`, the current timestamp and no
result. -/
theorem C3_admit_fresh (now : Int) (job : PullRequestJob) (store : QueueStore)
    (h : storeGet store (getQueueKey job) = none ∨
      ∃ check, storeGet store (getQueueKey job) = some check ∧
        (check.status = "completed" ∨ check.status = "failed") ∧
        300000 ≤ now - check.timestamp) :
    (enqueueCheck now job store).1.isNew = true ∧
    (enqueueCheck now job store).1.status = startedMsg ∧
    (enqueueCheck now job store).2 =
      storePut store (getQueueKey job) (newCheck now job) ∧
    storeGet (enqueueCheck now job store).2 (getQueueKey job) =
      some { repository := job.repository, prNumber := job.prNumber,
             commentId := job.commentId, timestamp := now,
             status := "pending", result := none } := by
  have hrun : enqueueCheck now job store = startCheck now job store := by
    rcases h with h | ⟨check, hget, hstatus, hcd⟩
    · unfold enqueueCheck
      rw [h]
    · have hbranch : ¬ (check.status ≠ "completed" ∧ check.status ≠ "failed") := by
        rcases hstatus with h' | h' <;> simp [h']
      have hcool : ¬ (now - check.timestamp < cooldownPeriod) := by
        unfold cooldownPeriod; omega
      unfold enqueueCheck
      rw [hget]
      simp only [if_neg hbranch, if_neg hcool]
  refine ⟨by rw [hrun]; rfl, by rw [hrun]; rfl, by rw [hrun]; rfl, ?_⟩
  rw [hrun]
  exact storeGet_storePut_self store (getQueueKey job) (newCheck now job)

theorem C3_admit_fresh_witness :
    (enqueueCheck 1234 ⟨"acme/repo", 42, some 7⟩ []).1.isNew = true ∧
    (enqueueCheck 1234 ⟨"acme/repo", 42, some 7⟩ []).1.status = startedMsg ∧
    storeGet (enqueueCheck 1234 ⟨"acme/repo", 42, some 7⟩ []).2
        (getQueueKey ⟨"acme/repo", 42, some 7⟩) =
      some ⟨"acme/repo", 42, some 7, 1234, "pending", none⟩ := by
  have h := C3_admit_fresh 1234 ⟨"acme/repo", 42, some 7⟩ [] (Or.inl rfl)
  exact ⟨h.1, h.2.1, h.2.2.2⟩

/-- C4: on an existing `"pending"` or `"processing"` record, `enqueueCheck`
returns `isNew = false` with a message containing the record's current status,
and the store after the call is exactly the store before it (no write). -/
theorem C4_in_progress_no_write (now : Int) (job : PullRequestJob)
    (store : QueueStore) (check : QueuedCheck)
    (hget : storeGet store (getQueueKey job) = some check)
    (hstatus : check.status = "pending" ∨ check.status = "processing") :
    (enqueueCheck now job store).1.isNew = false ∧
    (enqueueCheck now job store).2 = store ∧
    ∃ pre post, (enqueueCheck now job store).1.status =
      pre ++ check.status ++ post := by
  have hbranch : check.status ≠ "completed" ∧ check.status ≠ "failed" := by
    rcases hstatus with h | h <;> simp [h]
  have hrun : enqueueCheck now job store =
      ({ status := inProgressMsg check.status, isNew := false }, store) := by
    unfold enqueueCheck
    rw [hget]
    simp only [if_pos hbranch]
  exact ⟨by rw [hrun],
    by rw [hrun],
    "> ⏳ **Article Check Status**: Check already in progress\n\nCurrent status: `",
    "`",
    by rw [hrun]; rfl⟩

theorem C4_in_progress_no_write_witness :
    (enqueueCheck 5000 ⟨"acme/repo", 42, none⟩
      [("queue:acme/repo:42", ⟨"acme/repo", 42, none, 0, "processing", none⟩)]).1.isNew
        = false ∧
    (enqueueCheck 5000 ⟨"acme/repo", 42, none⟩
      [("queue:acme/repo:42", ⟨"acme/repo", 42, none, 0, "processing", none⟩)]).2
        = [("queue:acme/repo:42", ⟨"acme/repo", 42, none, 0, "processing", none⟩)] := by
  have h := C4_in_progress_no_write 5000 ⟨"acme/repo", 42, none⟩
    [("queue:acme/repo:42", ⟨"acme/repo", 42, none, 0, "processing", none⟩)]
    ⟨"acme/repo", 42, none, 0, "processing", none⟩ (by decide) (Or.inr rfl)
  exact ⟨h.1, h.2.1⟩

/-- C9: for a stored record whose `status` string is anything other than
`"completed"` or `"failed"` (including values outside the four-status enum),
`enqueueCheck` at every time returns `isNew = false` with the
check-already-in-progress message and performs no write — the cooldown branch
is never reached — while `cleanOldChecks` does delete the record once it is
over an hour old. -/
theorem C9_nonterminal_status_blocks (job : PullRequestJob) (store : QueueStore)
    (check : QueuedCheck)
    (hget : storeGet store (getQueueKey job) = some check)
    (hc : check.status ≠ "completed") (hf : check.status ≠ "failed") :
    (∀ now, (enqueueCheck now job store).1.isNew = false ∧
      (enqueueCheck now job store).1.status = inProgressMsg check.status ∧
      (enqueueCheck now job store).2 = store) ∧
    ∀ t, check.timestamp < t - 3600000 →
      (getQueueKey job, check) ∉ cleanOldChecks t store := by
  constructor
  · intro now
    have hbranch : check.status ≠ "completed" ∧ check.status ≠ "failed" := ⟨hc, hf⟩
    have hrun : enqueueCheck now job store =
        ({ status := inProgressMsg check.status, isNew := false }, store) := by
      unfold enqueueCheck
      rw [hget]
      simp only [if_pos hbranch]
    exact ⟨by rw [hrun], by rw [hrun], by rw [hrun]⟩
  · intro t ht hmem
    simp only [cleanOldChecks, List.mem_filter, Bool.not_eq_true',
      decide_eq_false_iff_not] at hmem
    exact hmem.2 ht

theorem C9_nonterminal_status_blocks_witness :
    (enqueueCheck 999 ⟨"a/b", 1, none⟩
      [("queue:a/b:1", ⟨"a/b", 1, none, 0, "bogus", none⟩)]).1.isNew = false ∧
    (enqueueCheck 999 ⟨"a/b", 1, none⟩
      [("queue:a/b:1", ⟨"a/b", 1, none, 0, "bogus", none⟩)]).2
        = [("queue:a/b:1", ⟨"a/b", 1, none, 0, "bogus", none⟩)] ∧
    ("queue:a/b:1", (⟨"a/b", 1, none, 0, "bogus", none⟩ : QueuedCheck)) ∉
      cleanOldChecks 4000000
        [("queue:a/b:1", ⟨"a/b", 1, none, 0, "bogus", none⟩)] := by
  have h := C9_nonterminal_status_blocks ⟨"a/b", 1, none⟩
    [("queue:a/b:1", ⟨"a/b", 1, none, 0, "bogus", none⟩)]
    ⟨"a/b", 1, none, 0, "bogus", none⟩ (by decide) (by decide) (by decide)
  exact ⟨(h.1 999).1, (h.1 999).2.2, h.2 4000000 (by decide)⟩

/-- C5 counterexample: `updateCheckStatus` with a supplied but empty `result`
string on an existing record does not set the `result` field — JS truthiness
(`if (result)`) treats `""` like an absent argument, so the stored record keeps
its previous result `"old"` instead of the supplied `""`. -/
theorem C5_counterexample :
    updateCheckStatus ⟨"acme/repo", 42, none⟩ "completed" (some "")
        [("queue:acme/repo:42", ⟨"acme/repo", 42, none, 0, "processing", some "old"⟩)]
      = Except.ok
        [("queue:acme/repo:42", ⟨"acme/repo", 42, none, 0, "completed", some "old"⟩)] ∧
    (⟨"acme/repo", 42, none, 0, "completed", some "old"⟩ : QueuedCheck).result
      ≠ some "" := by
  exact ⟨rfl, by decide⟩

/-- C5 (amended): `updateCheckStatus` fails with the not-found error iff no
record exists for the job's key; when a record exists it sets `status` to the
given new status and persists, and it sets the `result` field exactly when a
non-empty result argument is supplied (an absent or empty-string result leaves
the previous `result` value in place, by JS truthiness). -/
theorem C5_transition_notfound (job : PullRequestJob) (status : String)
    (result : Option String) (store : QueueStore) :
    ((updateCheckStatus job status result store =
        Except.error "QueueManager: Check not found in queue") ↔
      storeGet store (getQueueKey job) = none) ∧
    ∀ check, storeGet store (getQueueKey job) = some check →
      ∃ check', updateCheckStatus job status result store =
          Except.ok (storePut store (getQueueKey job) check') ∧
        check'.status = status ∧
        (result = none → check'.result = check.result) ∧
        (∀ r, result = some r → r ≠ "" → check'.result = some r) ∧
        (result = some "" → check'.result = check.result) := by
  rcases ho : storeGet store (getQueueKey job) with _ | check
  · refine ⟨⟨fun _ => rfl, fun _ => ?_⟩, ?_⟩
    · unfold updateCheckStatus
      rw [ho]
    · intro check hc
      exact absurd hc (by simp)
  · have hrun : updateCheckStatus job status result store =
        Except.ok (storePut store (getQueueKey job)
          (applyResult { check with status := status } result)) := by
      unfold updateCheckStatus
      rw [ho]
    refine ⟨⟨?_, ?_⟩, ?_⟩
    · intro he
      rw [hrun] at he
      exact absurd he (by simp)
    · intro hnone
      exact absurd hnone (by simp)
    · intro check₂ hc
      rw [Option.some_inj] at hc
      subst hc
      refine ⟨applyResult { check with status := status } result, hrun, ?_, ?_, ?_, ?_⟩
      · rcases result with _ | r
        · rfl
        · unfold applyResult
          by_cases hr : r = "" <;> simp [hr]
      · intro hr
        subst hr
        rfl
      · intro r hr hne
        subst hr
        simp [applyResult, hne]
      · intro hr
        subst hr
        simp [applyResult]

theorem C5_transition_notfound_witness :
    (updateCheckStatus ⟨"acme/repo", 42, none⟩ "completed" (some "ok") [] =
        Except.error "QueueManager: Check not found in queue") ∧
    ∃ check', updateCheckStatus ⟨"acme/repo", 42, none⟩ "completed" (some "ok")
        [("queue:acme/repo:42", ⟨"acme/repo", 42, none, 3, "processing", none⟩)]
        = Except.ok (storePut
            [("queue:acme/repo:42", ⟨"acme/repo", 42, none, 3, "processing", none⟩)]
            (getQueueKey ⟨"acme/repo", 42, none⟩) check') ∧
      check'.status = "completed" ∧ check'.result = some "ok" := by
  constructor
  · exact (C5_transition_notfound ⟨"acme/repo", 42, none⟩ "completed" (some "ok") []).1.mpr rfl
  · obtain ⟨check', h1, h2, _, h4, _⟩ :=
      (C5_transition_notfound ⟨"acme/repo", 42, none⟩ "completed" (some "ok")
        [("queue:acme/repo:42", ⟨"acme/repo", 42, none, 3, "processing", none⟩)]).2
        ⟨"acme/repo", 42, none, 3, "processing", none⟩ (by decide)
    exact ⟨check', h1, h2, h4 "ok" rfl (by decide)⟩

/-- C6: `updateCheckStatus` on an existing record changes no field other than
`status` and `result`: the persisted record keeps the previous `repository`,
`prNumber`, `commentId` and — in particular — `timestamp` (the cooldown window
keeps being measured from admission time). -/
theorem C6_transition_frame (job : PullRequestJob) (status : String)
    (result : Option String) (store : QueueStore) (check : QueuedCheck)
    (hget : storeGet store (getQueueKey job) = some check) :
    ∃ check', updateCheckStatus job status result store =
        Except.ok (storePut store (getQueueKey job) check') ∧
      check'.repository = check.repository ∧
      check'.prNumber = check.prNumber ∧
      check'.commentId = check.commentId ∧
      check'.timestamp = check.timestamp := by
  refine ⟨applyResult { check with status := status } result, ?_, ?_, ?_, ?_, ?_⟩
  · unfold updateCheckStatus
    rw [hget]
  all_goals
    rcases result with _ | r
    · rfl
    · unfold applyResult
      by_cases hr : r = "" <;> simp [hr]

theorem C6_transition_frame_witness :
    ∃ check', updateCheckStatus ⟨"acme/repo", 42, some 9⟩ "failed" (some "bad")
        [("queue:acme/repo:42", ⟨"acme/repo", 42, some 9, 77, "processing", none⟩)]
        = Except.ok (storePut
            [("queue:acme/repo:42", ⟨"acme/repo", 42, some 9, 77, "processing", none⟩)]
            (getQueueKey ⟨"acme/repo", 42, some 9⟩) check') ∧
      check'.repository = "acme/repo" ∧
      check'.prNumber = 42 ∧
      check'.commentId = some 9 ∧
      check'.timestamp = 77 :=
  C6_transition_frame ⟨"acme/repo", 42, some 9⟩ "failed" (some "bad")
    [("queue:acme/repo:42", ⟨"acme/repo", 42, some 9, 77, "processing", none⟩)]
    ⟨"acme/repo", 42, some 9, 77, "processing", none⟩ (by decide)

/-- C7: `cleanOldChecks` deletes every listed record whose `timestamp` is
strictly older than `now - 3600000` — whatever its `status` is, the status is
never consulted — and keeps every record whose timestamp is within the
threshold. -/
theorem C7_sweep_threshold (now : Int) (store : QueueStore) (k : String)
    (c : QueuedCheck) (hmem : (k, c) ∈ store) :
    (c.timestamp < now - 3600000 → (k, c) ∉ cleanOldChecks now store) ∧
    (now - 3600000 ≤ c.timestamp → (k, c) ∈ cleanOldChecks now store) := by
  constructor
  · intro hold hmem'
    simp only [cleanOldChecks, List.mem_filter, Bool.not_eq_true',
      decide_eq_false_iff_not] at hmem'
    exact hmem'.2 hold
  · intro hnew
    simp only [cleanOldChecks, List.mem_filter, Bool.not_eq_true',
      decide_eq_false_iff_not]
    exact ⟨hmem, by omega⟩

theorem C7_sweep_threshold_witness :
    ("queue:a/b:1", (⟨"a/b", 1, none, 0, "processing", none⟩ : QueuedCheck)) ∉
      cleanOldChecks 4000000
        [("queue:a/b:1", ⟨"a/b", 1, none, 0, "processing", none⟩),
         ("queue:a/b:2", ⟨"a/b", 2, none, 3999999, "completed", none⟩)] ∧
    ("queue:a/b:2", (⟨"a/b", 2, none, 3999999, "completed", none⟩ : QueuedCheck)) ∈
      cleanOldChecks 4000000
        [("queue:a/b:1", ⟨"a/b", 1, none, 0, "processing", none⟩),
         ("queue:a/b:2", ⟨"a/b", 2, none, 3999999, "completed", none⟩)] :=
  ⟨(C7_sweep_threshold 4000000
      [("queue:a/b:1", ⟨"a/b", 1, none, 0, "processing", none⟩),
       ("queue:a/b:2", ⟨"a/b", 2, none, 3999999, "completed", none⟩)]
      "queue:a/b:1" ⟨"a/b", 1, none, 0, "processing", none⟩
      (by decide)).1 (by decide),
   (C7_sweep_threshold 4000000
      [("queue:a/b:1", ⟨"a/b", 1, none, 0, "processing", none⟩),
       ("queue:a/b:2", ⟨"a/b", 2, none, 3999999, "completed", none⟩)]
      "queue:a/b:2" ⟨"a/b", 2, none, 3999999, "completed", none⟩
      (by decide)).2 (by decide)⟩

/-- A `checkRateLimit` call inside the current window with both limits clear:
no reset, `requestCount` and `inputTokens` incremented and persisted. -/
theorem checkRateLimit_ok (e now rc it ot ts : Int)
    (h1 : now - ts < 60000) (h2 : rc < 5) (h3 : it + e < 10000) :
    checkRateLimit e now (some ⟨rc, it, ot, ts⟩) =
      (Except.ok (), some ⟨rc + 1, it + e, ot, ts⟩) := by
  have hr : ¬ now - ts ≥ 60000 := by omega
  simp only [checkRateLimit, getRateLimitState, requestsPerMinute,
    inputTokensPerMinute, if_neg hr]
  rw [if_neg (show ¬ rc ≥ 5 by omega), if_neg (show ¬ it + e ≥ 10000 by omega)]

/-- A `checkRateLimit` call after the window elapsed: the counters reset before
the limit checks, so the call succeeds whenever the estimate alone is below the
input-token limit, and the persisted state reflects only this call. -/
theorem checkRateLimit_reset_ok (e now rc it ot ts : Int)
    (h1 : now - ts ≥ 60000) (h2 : e < 10000) :
    checkRateLimit e now (some ⟨rc, it, ot, ts⟩) =
      (Except.ok (), some ⟨1, e, 0, now⟩) := by
  simp only [checkRateLimit, getRateLimitState, requestsPerMinute,
    inputTokensPerMinute, if_pos h1]
  rw [if_neg (show ¬ (0 : Int) ≥ 5 by omega),
    if_neg (show ¬ (0 : Int) + e ≥ 10000 by omega)]
  norm_num

/-- C8: from a fresh window starting at `w`, five `checkRateLimit` calls within
the window whose (non-negative) input-token estimates total below 10000 all
succeed, leaving `requestCount = 5` and the summed `inputTokens`; a sixth call
within the same window fails with the requests-per-minute error and leaves the
stored counter untouched; and a call made when `now - windowStart ≥ 60000`
first resets the counters and the window start, succeeds (its estimate being
below 10000), and persists a counter reflecting only that post-reset call. -/
theorem C8_reserve_window (w n1 n2 n3 n4 n5 n6 e1 e2 e3 e4 e5 e6 now e : Int)
    (s : RateLimitState)
    (h1 : w ≤ n1 ∧ n1 - w < 60000) (h2 : w ≤ n2 ∧ n2 - w < 60000)
    (h3 : w ≤ n3 ∧ n3 - w < 60000) (h4 : w ≤ n4 ∧ n4 - w < 60000)
    (h5 : w ≤ n5 ∧ n5 - w < 60000) (h6 : w ≤ n6 ∧ n6 - w < 60000)
    (he : 0 ≤ e1 ∧ 0 ≤ e2 ∧ 0 ≤ e3 ∧ 0 ≤ e4 ∧ 0 ≤ e5)
    (hsum : e1 + e2 + e3 + e4 + e5 < 10000)
    (hreset : now - s.timestamp ≥ 60000) (hee : e < 10000) :
    runReserves [(n1, e1), (n2, e2), (n3, e3), (n4, e4), (n5, e5)]
        (some ⟨0, 0, 0, w⟩) =
      Except.ok (some ⟨5, e1 + e2 + e3 + e4 + e5, 0, w⟩) ∧
    checkRateLimit e6 n6 (some ⟨5, e1 + e2 + e3 + e4 + e5, 0, w⟩) =
      (Except.error "Rate limit exceeded: Too many requests per minute",
       some ⟨5, e1 + e2 + e3 + e4 + e5, 0, w⟩) ∧
    checkRateLimit e now (some s) = (Except.ok (), some ⟨1, e, 0, now⟩) := by
  obtain ⟨rc, it, ot, ts⟩ := s
  refine ⟨?_, ?_, checkRateLimit_reset_ok e now rc it ot ts hreset hee⟩
  · simp only [runReserves,
      checkRateLimit_ok e1 n1 0 0 0 w (by omega) (by omega) (by omega),
      checkRateLimit_ok e2 n2 1 e1 0 w (by omega) (by omega) (by omega),
      checkRateLimit_ok e3 n3 2 (e1 + e2) 0 w (by omega) (by omega) (by omega),
      checkRateLimit_ok e4 n4 3 (e1 + e2 + e3) 0 w (by omega) (by omega) (by omega),
      checkRateLimit_ok e5 n5 4 (e1 + e2 + e3 + e4) 0 w (by omega) (by omega) (by omega),
      Int.reduceAdd, zero_add]
  · have hr : ¬ n6 - w ≥ 60000 := by omega
    simp only [checkRateLimit, getRateLimitState, requestsPerMinute,
      inputTokensPerMinute, if_neg hr]
    rw [if_pos (show (5 : Int) ≥ 5 by omega)]

theorem C8_reserve_window_witness :
    runReserves [(1000, 100), (2000, 100), (3000, 100), (4000, 100), (5000, 100)]
        (some ⟨0, 0, 0, 0⟩) = Except.ok (some ⟨5, 500, 0, 0⟩) ∧
    checkRateLimit 9 5500 (some ⟨5, 500, 0, 0⟩) =
      (Except.error "Rate limit exceeded: Too many requests per minute",
       some ⟨5, 500, 0, 0⟩) ∧
    checkRateLimit 42 60000 (some ⟨2, 300, 50, 0⟩) =
      (Except.ok (), some ⟨1, 42, 0, 60000⟩) := by
  have h := C8_reserve_window 0 1000 2000 3000 4000 5000 5500 100 100 100 100 100 9
    60000 42 ⟨2, 300, 50, 0⟩ (by omega) (by omega) (by omega) (by omega) (by omega)
    (by omega) (by omega) (by omega) (by norm_num) (by omega)
  simpa using h

/-- C10: whenever `checkRateLimit` fails (with either rate-limit error), the
stored `"rate_limit"` counter after the call is exactly the pre-call value:
the throw precedes the persist, so neither the increment nor an in-memory
window reset reaches the store. -/
theorem C10_reserve_failure_no_write (tokenCount now : Int)
    (stored : Option RateLimitState) (msg : String)
    (hfail : (checkRateLimit tokenCount now stored).1 = Except.error msg) :
    (checkRateLimit tokenCount now stored).2 = stored := by
  simp only [checkRateLimit, getRateLimitState, requestsPerMinute,
    inputTokensPerMinute] at hfail ⊢
  split_ifs at hfail ⊢ <;> simp_all

theorem C10_reserve_failure_no_write_witness :
    (checkRateLimit 1 10 (some ⟨5, 0, 0, 0⟩)).2 = some ⟨5, 0, 0, 0⟩ ∧
    (checkRateLimit 10000 70000 (some ⟨5, 9999, 100, 0⟩)).2 = some ⟨5, 9999, 100, 0⟩ :=
  ⟨C10_reserve_failure_no_write 1 10 (some ⟨5, 0, 0, 0⟩)
      "Rate limit exceeded: Too many requests per minute" rfl,
   C10_reserve_failure_no_write 10000 70000 (some ⟨5, 9999, 100, 0⟩)
      "Rate limit exceeded: Too many input tokens per minute" rfl⟩
